import Mathlib

/-!
Verification development for the `root-core` runtime engine.

This file gives a shallow embedding, in Lean 4, of the access-control and
persistence core of the repository:

* `src/core/bases/base_repository.py` — the generic repository engine
  (`_build_select_stmt`, `__get_filter`, `_handle_db_error`, `get`, `count`,
  `list`, `search`, `create`, `update`, `restore`, `_add_log`);
* `src/core/utils/query_utils.py` — `add_include_deleted`;
* `src/core/database.py` — the global soft-delete query filter
  (`_apply_soft_delete_filter`, `exclude_deleted_records`);
* `src/core/apps/auth/utils/utils.py` and `src/core/security_manager.py` —
  the token → identity cache (`_get_cached_auth`, `_set_cached_auth`,
  `get_current_user`, `SecurityManager.get_cached_auth` /
  `set_cached_auth` / `get_current_user`);
* `src/core/security_manager.py` and
  `src/services/auth_service/middlewares/require_permissions.py` — the
  permission enforcer (`check_permissions`, `_get_user_permissions`,
  `require_permissions`).

Machine integers are modelled as `Int` / `Nat` (the Python values involved are
small ids, timestamps and page numbers; no fixed-width overflow is relevant).
Python `None` is modelled by explicit `Option` / a `vnull` value constructor,
exceptions by `Except`, mutable database state by explicit state passing, and
the data-layer failure injected by the driver by an explicit
`Option DbFailure` argument on each transaction.
-/

namespace RootCore

/-- A scalar value as stored in an entity field or passed through a filter /
update payload.  `vnull` is Python `None` (SQL `NULL`). -/
inductive Value where
  | vnull : Value
  | vbool : Bool → Value
  | vint : Int → Value
  | vstr : String → Value
deriving DecidableEq, Repr

/-- Python `str(v)` for the scalar values we model (used only to build the
text of error messages, mirroring the f-strings in the source). -/
def Value.pyStr : Value → String
  | .vnull => "None"
  | .vbool b => if b then "True" else "False"
  | .vint n => toString n
  | .vstr s => s

/-- A value appearing in a keyword filter of the repository: either a scalar
(possibly `None`) or a Python list (which `_build_select_stmt` turns into an
`IN` clause). -/
inductive FilterVal where
  | fone : Value → FilterVal
  | flist : List Value → FilterVal
deriving DecidableEq, Repr

/-- Python `v is None` on a filter value (a list is never `None`). -/
def FilterVal.isNull : FilterVal → Bool
  | .fone .vnull => true
  | _ => false

/-- Python truthiness of a scalar: `None`, `False`, `0` and `""` are falsy. -/
def Value.truthy : Value → Bool
  | .vnull => false
  | .vbool b => b
  | .vint n => n != 0
  | .vstr s => s != ""

/-- Python truthiness of a filter value (an empty list is falsy). -/
def FilterVal.truthy : FilterVal → Bool
  | .fone v => v.truthy
  | .flist vs => !vs.isEmpty

/-- Python `repr(v)` for the scalar values we model: inside a list rendered
by an f-string, strings appear quoted. -/
def Value.pyRepr : Value → String
  | .vnull => "None"
  | .vbool b => if b then "True" else "False"
  | .vint n => toString n
  | .vstr s => "\x27" ++ s ++ "\x27"

/-- Python `str(v)` on a filter value, for error-message text; a list renders
its elements with `repr`. -/
def FilterVal.pyStr : FilterVal → String
  | .fone v => v.pyStr
  | .flist vs => "[" ++ String.intercalate ", " (vs.map Value.pyRepr) ++ "]"

/-- An association list of field name to value: the shape of entity dumps,
update payloads and audit-log data payloads. -/
abbrev Fields := List (String × Value)

/-- A row of the entity table to which one `BaseRepository` is bound.
`id` is the surrogate primary key, `is_deleted` the soft-delete flag of
`core.database.BaseModel`, and `fields` the remaining typed columns. -/
structure Entity where
  id : Nat
  is_deleted : Bool
  fields : Fields
deriving DecidableEq, Repr

/-- The static configuration of one repository subclass: its table name,
its model's non-`id`/non-`is_deleted` column names, `_search_fields`, and the
field names that carry an `int` cast in `BaseRepository.casts`
(the base class registers exactly `{"id": int}`). -/
structure RepoConfig where
  table_name : String
  field_names : List String
  search_fields : List String
  casts : List String := ["id"]
deriving Repr

/-- Python `hasattr(self.model, f)`: the model always has `id` and
`is_deleted` (from `BaseModel`) plus its own columns. -/
def hasField (cfg : RepoConfig) (f : String) : Bool :=
  f == "id" || f == "is_deleted" || cfg.field_names.contains f

/-- Python `getattr(row, f)` on an entity row; a column that was never set
reads as SQL `NULL`. -/
def getAttr (e : Entity) (f : String) : Value :=
  if f == "id" then .vint e.id
  else if f == "is_deleted" then .vbool e.is_deleted
  else match e.fields.lookup f with
    | some v => v
    | none => .vnull

/-- The single exception class `RepositoryError` raised by the repository
(`base_repository.py` defines no other error type). -/
inductive RepoError where
  | repositoryError : String → RepoError
deriving DecidableEq, Repr

instance {ε α : Type _} [DecidableEq ε] [DecidableEq α] :
    DecidableEq (Except ε α) := fun x y =>
  match x, y with
  | .ok a, .ok b =>
      if h : a = b then isTrue (by rw [h])
      else isFalse (by intro hh; cases hh; exact h rfl)
  | .error a, .error b =>
      if h : a = b then isTrue (by rw [h])
      else isFalse (by intro hh; cases hh; exact h rfl)
  | .ok _, .error _ => isFalse (by intro hh; cases hh)
  | .error _, .ok _ => isFalse (by intro hh; cases hh)

/-- The two kinds of `SQLAlchemyError` distinguished by
`BaseRepository._handle_db_error`: `IntegrityError` and every other
data-layer failure, each carrying the driver's message text. -/
inductive DbFailure where
  | integrity : String → DbFailure
  | other : String → DbFailure
deriving DecidableEq, Repr

/-- `BaseRepository._handle_db_error`: wraps the driver failure in a
`RepositoryError` whose message distinguishes the integrity case. -/
def handle_db_error : DbFailure → String → RepoError
  | .integrity msg, op =>
      .repositoryError ("Database integrity error during " ++ op ++ ": " ++ msg)
  | .other msg, op =>
      .repositoryError ("Database error during " ++ op ++ ": " ++ msg)

/-- Decimal digit value of a character, by its code point. -/
def digitVal (c : Char) : Option Nat :=
  if 48 ≤ c.toNat && c.toNat ≤ 57 then some (c.toNat - 48) else none

/-- Parse an unsigned decimal digit string (at least one digit). -/
def parseNatDigits : List Char → Option Nat
  | [] => none
  | cs => cs.foldl (fun acc c => match acc, digitVal c with
      | some n, some d => some (n * 10 + d)
      | _, _ => none) (some 0)

/-- Python `int(s)` on a string: optional sign followed by decimal digits
(surrounding-whitespace tolerance is not modelled; no caller passes padded
strings). -/
def pyIntOfString (s : String) : Option Int :=
  match s.toList with
  | '-' :: rest => (parseNatDigits rest).map (fun n => -(n : Int))
  | '+' :: rest => (parseNatDigits rest).map (fun n => (n : Int))
  | cs => (parseNatDigits cs).map (fun n => (n : Int))

/-- Python `int(v)` on a scalar filter value; `none` models the raised
`ValueError`/`TypeError` (`int(None)` raises, `int(bool)` is 0/1). -/
def pyInt : Value → Option Value
  | .vint n => some (.vint n)
  | .vbool b => some (.vint (if b then 1 else 0))
  | .vstr s => (pyIntOfString s).map Value.vint
  | .vnull => none

/-- Apply the registered `int` cast of `BaseRepository.casts[k]` to one
filter value, casting each element of a list value, exactly as
`BaseRepository.__get_filter` does.  A cast failure is reported as the
`RepositoryError(f"Invalid filter value for {k}: {v}")` of the source. -/
def castFilterVal (k : String) (v : FilterVal) : Except RepoError FilterVal :=
  let fail : Except RepoError FilterVal :=
    .error (.repositoryError ("Invalid filter value for " ++ k ++ ": " ++ v.pyStr))
  match v with
  | .fone x =>
      match pyInt x with
      | some x' => .ok (.fone x')
      | none => fail
  | .flist xs =>
      match xs.mapM pyInt with
      | some xs' => .ok (.flist xs')
      | none => fail

/-- An ordered list of keyword filters, standing for the Python `**filters`
dict (keys are unique in the callers; iteration order is insertion order). -/
abbrev Filters := List (String × FilterVal)

/-- `BaseRepository.__get_filter`: apply the registered casts to the filter
values, raising on the first value a cast rejects.  Values that are `None`
and keys without a registered cast pass through unchanged. -/
def get_filter (casts : List String) : Filters → Except RepoError Filters
  | [] => .ok []
  | (k, v) :: rest =>
      if casts.contains k && !v.isNull then
        match castFilterVal k v with
        | .error e => .error e
        | .ok v' => (get_filter casts rest).map (fun fs => (k, v') :: fs)
      else
        (get_filter casts rest).map (fun fs => (k, v) :: fs)

/-- Lower-cased code point of a character (ASCII case folding), used to model
Python `str.lower()` and SQL `ILIKE` comparisons without constructing chars. -/
def charLowerCode (c : Char) : Nat :=
  if 65 ≤ c.toNat && c.toNat ≤ 90 then c.toNat + 32 else c.toNat

/-- The lower-cased code points of a string. -/
def lowerCodes (s : String) : List Nat := s.toList.map charLowerCode

/-- Is `needle` a contiguous run of `hay`? -/
def codesPrefix : List Nat → List Nat → Bool
  | [], _ => true
  | _ :: _, [] => false
  | a :: as, b :: bs => a == b && codesPrefix as bs

/-- Substring test on code-point lists. -/
def codesSub (needle : List Nat) : List Nat → Bool
  | [] => needle.isEmpty
  | b :: bs => codesPrefix needle (b :: bs) || codesSub needle bs

/-- SQL `column ILIKE '%q%'` on a scalar column value: case-insensitive
substring match; a `NULL` or non-text column never matches. -/
def ilike (v : Value) (q : String) : Bool :=
  match v with
  | .vstr s => codesSub (lowerCodes q) (lowerCodes s)
  | _ => false

/-- One `WHERE` condition accumulated by `_build_select_stmt` / `search`. -/
inductive Cond where
  | eqCond : String → Value → Cond
  | inCond : String → List Value → Cond
  | isNullCond : String → Cond
  | orIlike : List String → String → Cond
  | idEq : Nat → Cond
  | notDeleted : Cond
deriving Repr

/-- The query object built by the repository: the accumulated `WHERE`
conditions plus the `include_deleted` execution option flag that
`core.database._apply_soft_delete_filter` inspects at execution time. -/
structure Stmt where
  includeDeletedOpt : Bool
  conds : List Cond
deriving Repr

/-- `core.utils.query_utils.add_include_deleted`: returns a statement with the
`include_deleted=True` execution option attached when asked to (statements
are immutable; the caller must use the returned statement). -/
def add_include_deleted (stmt : Stmt) (include_deleted : Bool) : Stmt :=
  if include_deleted then { stmt with includeDeletedOpt := true } else stmt

/-- Truth of one condition at a row, with SQL `NULL` semantics: `=` and `IN`
never match a `NULL` column. -/
def condHolds (cfg : RepoConfig) (e : Entity) : Cond → Bool
  | .eqCond f v => getAttr e f != .vnull && getAttr e f == v
  | .inCond f vs => getAttr e f != .vnull && vs.contains (getAttr e f)
  | .isNullCond f => getAttr e f == .vnull
  | .orIlike fs q => fs.any (fun f => hasField cfg f && ilike (getAttr e f) q)
  | .idEq n => e.id == n
  | .notDeleted => !e.is_deleted

/-- `core.database._apply_soft_delete_filter`: executing a select appends the
`is_deleted == False` loader criteria unless the statement carries the
`include_deleted=True` execution option; the rows are then filtered by the
statement's conditions. -/
def exec_select (cfg : RepoConfig) (stmt : Stmt) (store : List Entity) :
    List Entity :=
  store.filter (fun e =>
    (stmt.includeDeletedOpt || !e.is_deleted) && stmt.conds.all (condHolds cfg e))

/-- `BaseRepository._build_select_stmt`.  Mirrors the source statement by
statement: the result of `add_include_deleted(stmt, include_deleted)` is
discarded (the Python call ignores the returned statement), the filters are
passed through `__get_filter`, then each filter entry adds its condition:
the reserved truthy `query` key ORs an `ILIKE` across the search fields,
unknown keys are ignored, and known keys add `IN` / `IS NULL` / `=`.
The base class registers no `filter_<field>` hooks, so the custom-filter
branch never fires. -/
def build_select_stmt (cfg : RepoConfig) (include_deleted : Bool)
    (filters : Filters) : Except RepoError Stmt :=
  let stmt : Stmt := { includeDeletedOpt := false, conds := [] }
  let _ := add_include_deleted stmt include_deleted
  (get_filter cfg.casts filters).map (fun fs =>
    fs.foldl (fun st kv =>
      let field := kv.1
      if field == "query" && kv.2.truthy then
        let scs := cfg.search_fields.filter (fun s => hasField cfg s)
        if scs.isEmpty then st
        else { st with conds := st.conds ++ [.orIlike scs kv.2.pyStr] }
      else if hasField cfg field then
        match kv.2 with
        | .flist vs => { st with conds := st.conds ++ [.inCond field vs] }
        | .fone .vnull => { st with conds := st.conds ++ [.isNullCond field] }
        | .fone v => { st with conds := st.conds ++ [.eqCond field v] }
      else st) stmt)

/-- `BaseRepository.get`: build the filtered select, add `id == item_id`,
execute and take the first row. -/
def repoGet (cfg : RepoConfig) (store : List Entity) (item_id : Nat)
    (include_deleted : Bool) (filters : Filters) :
    Except RepoError (Option Entity) :=
  (build_select_stmt cfg include_deleted filters).map (fun stmt =>
    let stmt := { stmt with conds := stmt.conds ++ [.idEq item_id] }
    (exec_select cfg stmt store).head?)

/-- `BaseRepository.count`: a `COUNT(*)` over the filtered, unpaginated
select. -/
def repoCount (cfg : RepoConfig) (store : List Entity)
    (include_deleted : Bool) (filters : Filters) : Except RepoError Nat :=
  (build_select_stmt cfg include_deleted filters).map (fun stmt =>
    (exec_select cfg stmt store).length)

/-- Total order used to model SQL `ORDER BY` on one column: `NULL` first,
then booleans, integers and strings in their natural orders (within one
column all values share a type, so the cross-type tie-break is inert). -/
def Value.le : Value → Value → Bool
  | .vnull, _ => true
  | _, .vnull => false
  | .vbool x, .vbool y => !x || y
  | .vbool _, _ => true
  | _, .vbool _ => false
  | .vint m, .vint n => decide (m ≤ n)
  | .vint _, _ => true
  | _, .vint _ => false
  | .vstr s, .vstr t => decide (s ≤ t)

/-- Row comparison realizing `ORDER BY sort_col {DESC|ASC}`; the source picks
descending exactly when `sort_order.lower() == "desc"`. -/
def orderRel (cfg : RepoConfig) (sort_by sort_order : String)
    (a b : Entity) : Bool :=
  if lowerCodes sort_order == lowerCodes "desc" then
    Value.le (getAttr b sort_by) (getAttr a sort_by)
  else
    Value.le (getAttr a sort_by) (getAttr b sort_by)

/-- The `ORDER BY` relation as a decidable proposition. -/
def sortRel (cfg : RepoConfig) (sort_by sort_order : String) :
    Entity → Entity → Prop :=
  fun a b => orderRel cfg sort_by sort_order a b = true

instance (cfg : RepoConfig) (f o : String) : DecidableRel (sortRel cfg f o) :=
  fun a b => inferInstanceAs (Decidable (_ = true))

/-- The database's `ORDER BY sort_col` pass (a sort of the filtered rows),
applied by `list` only when the model has the `sort_by` attribute. -/
def sortRows (cfg : RepoConfig) (sort_by sort_order : String)
    (rows : List Entity) : List Entity :=
  List.insertionSort (sortRel cfg sort_by sort_order) rows

/-- The `PaginatedResponse` payload of `core.response.schemas` as far as the
repository fills it in (`success`/`message` are constants and omitted). -/
structure Paginated where
  data : List Entity
  total : Nat
  page : Int
  per_page : Int
  pages : Nat
deriving DecidableEq, Repr

/-- `BaseRepository.list`: clamp `page`/`per_page`, count the filtered
unpaginated rows, order when the model has the sort column, then apply
`OFFSET (page-1)*per_page LIMIT per_page` and report
`pages = (total + per_page - 1) // per_page`. -/
def repoList (cfg : RepoConfig) (store : List Entity) (page per_page : Int)
    (include_deleted : Bool) (sort_by sort_order : String)
    (filters : Filters) : Except RepoError Paginated :=
  let page := if page < 1 then 1 else page
  let per_page := if per_page < 1 || per_page > 100 then 10 else per_page
  (build_select_stmt cfg include_deleted filters).map (fun stmt =>
    let offset := (page - 1) * per_page
    let rows := exec_select cfg stmt store
    let total := rows.length
    let sorted :=
      if hasField cfg sort_by then sortRows cfg sort_by sort_order rows
      else rows
    let items := (sorted.drop offset.toNat).take per_page.toNat
    let pages := (total + per_page.toNat - 1) / per_page.toNat
    { data := items, total := total, page := page, per_page := per_page,
      pages := pages })

/-- `BaseRepository.search`: the statement discards the result of
`add_include_deleted` (as the source does) and then unconditionally adds the
explicit `is_deleted == False` clause for models that carry the flag (every
model derived from `core.database.BaseModel` does); the `ILIKE` disjunction
ranges over the requested fields, defaulting to `_search_fields`.  The whole
result set is returned as one page with `per_page = total`. -/
def search (cfg : RepoConfig) (store : List Entity) (query : String)
    (search_fields : List String) (include_deleted : Bool) : Paginated :=
  let search_fields :=
    if search_fields.isEmpty then cfg.search_fields else search_fields
  let stmt : Stmt := { includeDeletedOpt := false, conds := [] }
  let _ := add_include_deleted stmt include_deleted
  let stmt := { stmt with conds := stmt.conds ++ [.notDeleted] }
  let scs := search_fields.filter (fun f => hasField cfg f)
  let stmt :=
    if scs.isEmpty then stmt
    else { stmt with conds := stmt.conds ++ [.orIlike scs query] }
  let items := exec_select cfg stmt store
  { data := items, total := items.length, page := 1,
    per_page := (items.length : Int), pages := 1 }

/-- One row of the audit `Log` table as filled in by
`BaseRepository._add_log` (`created_at` is a server default and omitted). -/
structure LogEntry where
  table_name : String
  record_id : Nat
  action : String
  old_data : Option Fields
  new_data : Option Fields
  user_id : Option Nat
  ip_address : Option String
  user_agent : Option String
deriving DecidableEq, Repr

/-- The request identity context that `_add_log` reads through `auth()`:
acting user id, client ip and user agent (all `None` when unauthenticated). -/
structure AuthCtx where
  user_id : Option Nat
  ip_address : Option String
  user_agent : Option String
deriving Repr

/-- The persistent state touched by one repository: the entity table and the
audit log table. -/
structure DB where
  entities : List Entity
  logs : List LogEntry
deriving DecidableEq, Repr

/-- `session.get(self.model, item_id)`: a primary-key lookup.  The global
soft-delete criteria of `_apply_soft_delete_filter` applies to ORM selects,
so a soft-deleted row is not found. -/
def db_get (es : List Entity) (item_id : Nat) : Option Entity :=
  es.find? (fun e => e.id == item_id && !e.is_deleted)

/-- Replace the row with the given row's primary key (first match; primary
keys are unique in a real store). -/
def replaceById : List Entity → Entity → List Entity
  | [], _ => []
  | e :: es, x => if e.id == x.id then x :: es else e :: replaceById es x

/-- Python `{**old, **upd}`: keys of `old` in order, values overridden by
`upd` where present, followed by the keys of `upd` absent from `old`. -/
def dictMerge (old upd : Fields) : Fields :=
  (old.map (fun kv =>
    match upd.lookup kv.1 with
    | some v => (kv.1, v)
    | none => kv)) ++
  upd.filter (fun kv => (old.lookup kv.1).isNone)

/-- `setattr` on a declared column: replace the stored value (or record it
for a column not yet materialized on the row). -/
def setField : Fields → String → Value → Fields
  | [], k, v => [(k, v)]
  | kv :: rest, k, v =>
      if kv.1 == k then (k, v) :: rest else kv :: setField rest k v

/-- One iteration of the `update` assignment loop: the base class registers
no `update_<field>` handler, so a plain `setattr` runs for keys the model
has, `id` excluded. -/
def applyAttr (cfg : RepoConfig) (e : Entity) (key : String) (v : Value) :
    Entity :=
  if hasField cfg key && key != "id" then
    if key == "is_deleted" then { e with is_deleted := v == .vbool true }
    else { e with fields := setField e.fields key v }
  else e

/-- `BaseRepository._add_log` builds the log row from the request identity
context; our payloads contain no date values, so the `json` round-trip with
`json_safe` is the identity on them. -/
def mkLog (cfg : RepoConfig) (ctx : AuthCtx) (action : String)
    (record_id : Nat) (old_data new_data : Option Fields) : LogEntry :=
  { table_name := cfg.table_name, record_id := record_id, action := action,
    old_data := old_data, new_data := new_data, user_id := ctx.user_id,
    ip_address := ctx.ip_address, user_agent := ctx.user_agent }

/-- The attempt of `_add_log` to read the acting identity context.
`base_repository.py:23` imports `auth` from `core.security_manager`, where
`auth()` runs `security()`, which dereferences `settings.AUTH_CLASS`
(security_manager.py:407) — an attribute `core.config.Settings` does not
define — so the very first read `auth().user` raises `AttributeError`; and
even were the singleton constructible, `SecurityManager` has no
`ip_address`/`user_agent` attributes, which `_add_log` reads next
(base_repository.py:683-684).  Either way the read raises instead of
producing an identity context.  (The older `root_core` copy imports `auth`
from `apps.auth.utils.utils`, whose `Auth` object has these attributes; the
switched import is the slip.) -/
def authContextRead : Except String AuthCtx :=
  .error "AttributeError: 'Settings' object has no attribute 'AUTH_CLASS'"

/-- `BaseRepository._add_log`: the whole body runs inside
`try ... except Exception` (base_repository.py:719-720) which swallows every
failure so that logging never breaks the primary operation.  Because the
identity-context read raises, control leaves the `try` before `save_log`
stages the row: **no log entry is ever added in this codebase**.  The `ok`
branch shows the row that would be staged had the read succeeded; it is
unreachable here. -/
def add_log (cfg : RepoConfig) (action : String) (record_id : Nat)
    (old_data new_data : Option Fields) : List LogEntry :=
  match authContextRead with
  | .error _ => []
  | .ok rctx => [mkLog cfg rctx action record_id old_data new_data]

/-- The id the `flush()` assigns to a newly inserted row. -/
def nextId (es : List Entity) : Nat :=
  (es.map Entity.id).foldr max 0 + 1

/-- `BaseRepository.create`.  The new row takes the payload's columns (an
explicit `id` key is honoured by `self.model(**obj_in)`, otherwise `flush`
assigns the next id; `is_deleted` defaults to false), `_add_log` is invoked
for one `"انشاء"` entry with `new_data = model_dump(exclude=...)` but stages
nothing (see `add_log`), and `commit` either persists the pending session
state or, on a data-layer failure, rolls it back and re-raises through
`_handle_db_error`.  The identity-context parameter is kept in the
signature; the source reads the context inside `_add_log`, where the read
fails. -/
def create (cfg : RepoConfig) (db : DB) (ctx : AuthCtx) (obj_in : Fields)
    (dbo : Option DbFailure) : Except RepoError Entity × DB :=
  let fields := obj_in.filter (fun kv => kv.1 != "id" && kv.1 != "is_deleted")
  let is_del := obj_in.lookup "is_deleted" == some (.vbool true)
  let obj_id := match obj_in.lookup "id" with
    | some (.vint n) => n.toNat
    | _ => nextId db.entities
  let obj : Entity := { id := obj_id, is_deleted := is_del, fields := fields }
  let staged := add_log cfg "انشاء" obj.id none (some obj.fields)
  match dbo with
  | some f => (.error (handle_db_error f "create"), db)
  | none =>
      (.ok obj,
       { entities := db.entities ++ [obj], logs := db.logs ++ staged })

/-- `BaseRepository.update`.  `id` is popped from the payload; an empty
remainder raises `RepositoryError("No data provided for update")` before any
session is opened; a missing row yields `None`; otherwise `_add_log` stages
one `"تعديل"` entry whose `old_data` is the pre-image dump and whose
`new_data` would be the payload merged over that dump — but `_add_log`
stages nothing (see `add_log`); the assignment loop applies the non-`None`
values, and `commit` persists or rolls back the pending session state. -/
def update (cfg : RepoConfig) (db : DB) (ctx : AuthCtx) (item_id : Nat)
    (obj_in : Fields) (dbo : Option DbFailure) :
    Except RepoError (Option Entity) × DB :=
  let update_data := obj_in.filter (fun kv => kv.1 != "id")
  if update_data.isEmpty then
    (.error (.repositoryError "No data provided for update"), db)
  else
    match db_get db.entities item_id with
    | none => (.ok none, db)
    | some db_obj =>
        let old_dump := db_obj.fields
        let staged := add_log cfg "تعديل" db_obj.id (some old_dump)
          (some (dictMerge old_dump update_data))
        let new_obj := update_data.foldl (fun o kv =>
          if kv.2 == .vnull then o else applyAttr cfg o kv.1 kv.2) db_obj
        match dbo with
        | some f => (.error (handle_db_error f "update"), db)
        | none =>
            (.ok (some new_obj),
             { entities := replaceById db.entities new_obj,
               logs := db.logs ++ staged })

/-- `BaseRepository.restore`.  The model has `is_deleted`, so the guard
passes; a row the session cannot find yields `False`; otherwise `_add_log`
is invoked with the constant payloads `old_data = {"is_deleted": True}` /
`new_data = {"is_deleted": False}` but stages nothing (see `add_log`), the
flag is set to false, and `commit` persists or rolls back the pending
session state. -/
def restore (cfg : RepoConfig) (db : DB) (ctx : AuthCtx) (item_id : Nat)
    (dbo : Option DbFailure) : Except RepoError Bool × DB :=
  match db_get db.entities item_id with
  | none => (.ok false, db)
  | some db_obj =>
      let staged := add_log cfg "استعاده" db_obj.id
        (some [("is_deleted", .vbool true)])
        (some [("is_deleted", .vbool false)])
      let new_obj := { db_obj with is_deleted := false }
      match dbo with
      | some f => (.error (handle_db_error f "restore"), db)
      | none =>
          (.ok true,
           { entities := replaceById db.entities new_obj,
             logs := db.logs ++ staged })

/-! ## Identity cache (`src/core/apps/auth/utils/utils.py` and
`src/core/security_manager.py`) -/

/-- The `Auth` snapshot cached per token (`user` is the resolved identity,
abstracted to its subject id; ip/user-agent are not read on this path). -/
structure AuthSnap where
  user : Option Nat
  token : String
deriving DecidableEq, Repr

/-- The token cache `_AUTH_CACHE` / `SecurityManager._auth_cache`:
token → (snapshot, expiry timestamp).  Timestamps are seconds as naturals. -/
abbrev AuthCache := List (String × AuthSnap × Nat)

/-- Python dict assignment `cache[token] = (auth, expire_time)`. -/
def cacheInsert (c : AuthCache) (t : String) (a : AuthSnap) (exp : Nat) :
    AuthCache :=
  (t, a, exp) :: c.filter (fun kv => kv.1 != t)

/-- Python `cache.get(token)`. -/
def cacheLookup (c : AuthCache) (t : String) : Option (AuthSnap × Nat) :=
  (c.find? (fun kv => kv.1 == t)).map (fun kv => kv.2)

/-- `_get_cached_auth` / `SecurityManager.get_cached_auth`: return the entry
if its expiry is still strictly in the future, else evict it lazily. -/
def get_cached_auth (c : AuthCache) (t : String) (now : Nat) :
    Option AuthSnap × AuthCache :=
  match cacheLookup c t with
  | some (a, exp) =>
      if exp > now then (some a, c)
      else (none, c.filter (fun kv => kv.1 != t))
  | none => (none, c)

/-- `_CACHE_TTL` / `SecurityManager._cache_ttl` (one hour, in seconds). -/
def CACHE_TTL : Nat := 60 * 60

/-- `utils._set_cached_auth` as written: it stores
`expire_time = datetime.now().timestamp()` — the `+ _CACHE_TTL` term is
commented out in the source — so the entry expires at its insertion time. -/
def set_cached_auth_utils (c : AuthCache) (t : String) (a : AuthSnap)
    (now : Nat) : AuthCache :=
  cacheInsert c t a now

/-- `SecurityManager.set_cached_auth`: stores
`expire_time = datetime.now().timestamp() + self._cache_ttl`. -/
def set_cached_auth_manager (c : AuthCache) (t : String) (a : AuthSnap)
    (now : Nat) : AuthCache :=
  cacheInsert c t a (now + CACHE_TTL)

/-- `utils.get_current_user`: on a cache hit return the cached identity with
no verification; on a miss run the credential verifier (`jwt.decode` plus the
`get_user` lookup, modelled as one `verify` call), cache the snapshot via
`_set_cached_auth` and return the identity, or fail with the credentials
exception (`none`).  The third component counts verifier invocations. -/
def get_current_user_utils (verify : String → Option Nat) (c : AuthCache)
    (t : String) (now : Nat) : Option Nat × AuthCache × Nat :=
  match get_cached_auth c t now with
  | (some a, c') => (a.user, c', 0)
  | (none, c') =>
      match verify t with
      | none => (none, c', 1)
      | some uid =>
          (some uid,
           set_cached_auth_utils c' t { user := some uid, token := t } now, 1)

/-- `SecurityManager.get_current_user`: same control flow, caching through
`SecurityManager.set_cached_auth`. -/
def get_current_user_manager (verify : String → Option Nat) (c : AuthCache)
    (t : String) (now : Nat) : Option Nat × AuthCache × Nat :=
  match get_cached_auth c t now with
  | (some a, c') => (a.user, c', 0)
  | (none, c') =>
      match verify t with
      | none => (none, c', 1)
      | some uid =>
          (some uid,
           set_cached_auth_manager c' t { user := some uid, token := t } now, 1)

/-! ## Permission enforcer (`src/core/security_manager.py` and
`src/services/auth_service/middlewares/require_permissions.py`) -/

/-- One permission grant as serialized into the identity snapshot:
`(resource, action, app_name)`; `app_name = none` is an unset (global)
scope. -/
structure Perm where
  resource : String
  action : String
  app_name : Option String
deriving DecidableEq, Repr

/-- The resolved identity as the enforcer sees it. -/
structure UserIdent where
  is_superuser : Bool
  permissions : List Perm
deriving Repr

/-- `required.issubset(available)` on action sets represented as lists. -/
def subsetB (required available : List String) : Bool :=
  required.all (fun a => available.contains a)

/-- `SecurityManager._get_user_permissions`: keep the actions of the
permissions whose `resource` equals the required resource and for which
`app_name is None or p.app_name == app_name` — the *required* scope being
unset admits every permission scope; a set required scope must be equalled
by the permission's scope. -/
def get_user_permissions (perms : List Perm) (resource : String)
    (app_name : Option String) : List String :=
  (perms.filter (fun p =>
    p.resource == resource && (app_name.isNone || p.app_name == app_name))).map
    Perm.action

/-- `SecurityManager.check_permissions`: no user → deny; superuser → allow;
otherwise require the needed actions to be a subset of the filtered
action set. -/
def check_permissions (user : Option UserIdent) (required : List String)
    (resource : String) (app_name : Option String) : Bool :=
  match user with
  | none => false
  | some u =>
      if u.is_superuser then true
      else subsetB required (get_user_permissions u.permissions resource app_name)

/-- Outcome of the `require_permissions` wrapper around an endpoint. -/
inductive Decision where
  | allow
  | unauthorized
  | forbidden
deriving DecidableEq, Repr

/-- The `require_permissions(...)` wrapper of `SecurityManager` (the
middleware in `require_permissions.py` enforces the same rule): without
`need_auth` the endpoint runs unconditionally; with it, a missing identity
is `401 Unauthorized`, and a failed `check_permissions` is
`403 Forbidden`. -/
def enforce (user : Option UserIdent) (required : List String)
    (resource : String) (app_name : Option String) (need_auth : Bool) :
    Decision :=
  if !need_auth then .allow
  else match user with
    | none => .unauthorized
    | some u =>
        if check_permissions (some u) required resource app_name then .allow
        else .forbidden

/-- Modelled from the spec: the scope-matching rule as §4.2 words it — "scope
match is satisfied when the permission's scope is unset, i.e., global, or
equals the required scope".  Stated for comparison against
`get_user_permissions`, which implements a different rule. -/
def spec_scope_permissions (perms : List Perm) (resource : String)
    (app_name : Option String) : List String :=
  (perms.filter (fun p =>
    p.resource == resource && (p.app_name.isNone || p.app_name == app_name))).map
    Perm.action

/-! ## Concrete fixtures used by witnesses and counterexamples -/

/-- A sample repository configuration: an `items` table with one text column
`name`, searched over `name`, with the base class's `{"id": int}` cast. -/
def cfg0 : RepoConfig :=
  { table_name := "items", field_names := ["name"],
    search_fields := ["name"], casts := ["id"] }

/-- A sample request identity context. -/
def ctx0 : AuthCtx :=
  { user_id := some 1, ip_address := some "127.0.0.1", user_agent := some "ua" }

/-- A store of 25 non-deleted entities with ids 1..25. -/
def store25 : List Entity :=
  (List.range 25).map (fun i => { id := i + 1, is_deleted := false, fields := [] })

/-- A store holding exactly one soft-deleted entity. -/
def storeDel : List Entity :=
  [{ id := 1, is_deleted := true, fields := [] }]

/-- A store with one active matching entity and one soft-deleted one. -/
def storeMix : List Entity :=
  [{ id := 1, is_deleted := false, fields := [("name", .vstr "alpha")] },
   { id := 2, is_deleted := true, fields := [("name", .vstr "alpha")] }]

/-- A database whose entity table holds one active entity and whose audit
log is empty. -/
def db1 : DB :=
  { entities := [{ id := 1, is_deleted := false, fields := [] }], logs := [] }

/-- The global-scope permission to read invoices. -/
def permReadInvoices : Perm :=
  { resource := "invoices", action := "READ", app_name := none }

/-- A non-superuser identity holding only `permReadInvoices`. -/
def userInvoices : UserIdent :=
  { is_superuser := false, permissions := [permReadInvoices] }

/-- The permission to read invoices under the `billing` scope. -/
def permReadInvoicesBilling : Perm :=
  { resource := "invoices", action := "READ", app_name := some "billing" }

/-- A non-superuser identity holding only `permReadInvoicesBilling`. -/
def userInvoicesBilling : UserIdent :=
  { is_superuser := false, permissions := [permReadInvoicesBilling] }

/-! ## Order lemmas for the `ORDER BY` model -/

theorem Value.le_total' (a b : Value) : a.le b = true ∨ b.le a = true := by
  cases a <;> cases b <;> simp [Value.le]
  case vbool.vbool x y => cases x <;> cases y <;> simp
  case vint.vint m n => exact Int.le_total m n
  case vstr.vstr s t => exact le_total s.data t.data

theorem Value.le_trans' (a b c : Value) (hab : a.le b = true)
    (hbc : b.le c = true) : a.le c = true := by
  cases a <;> cases b <;> cases c <;> simp_all [Value.le]
  case vbool.vbool.vbool x y z =>
    cases x <;> cases y <;> cases z <;> simp_all
  case vint.vint.vint m n k => exact le_trans hab hbc
  case vstr.vstr.vstr s t u => exact le_trans hab hbc

instance (cfg : RepoConfig) (f o : String) : IsTotal Entity (sortRel cfg f o) := by
  constructor
  intro a b
  unfold sortRel orderRel
  split
  · exact (Value.le_total' (getAttr b f) (getAttr a f)).symm.imp id id |>.symm
  · exact Value.le_total' (getAttr a f) (getAttr b f)

instance (cfg : RepoConfig) (f o : String) : IsTrans Entity (sortRel cfg f o) := by
  constructor
  intro a b c hab hbc
  unfold sortRel orderRel at *
  split at hab <;> rename_i hcase
  · simp only [hcase, if_true] at hbc ⊢
    exact Value.le_trans' _ _ _ hbc hab
  · simp only [hcase, if_false] at hbc ⊢
    exact Value.le_trans' _ _ _ hab hbc

/-- Membership in an executed select means the soft-delete gate and every
condition hold at the row. -/
theorem mem_exec_select {cfg : RepoConfig} {stmt : Stmt} {store : List Entity}
    {e : Entity} (h : e ∈ exec_select cfg stmt store) :
    (stmt.includeDeletedOpt || !e.is_deleted) = true ∧
      stmt.conds.all (condHolds cfg e) = true := by
  have := List.mem_filter.mp h
  exact ⟨(Bool.and_eq_true _ _ |>.mp this.2).1,
         (Bool.and_eq_true _ _ |>.mp this.2).2⟩

/-- Replacing an entity by itself leaves a store with unique ids unchanged. -/
theorem replaceById_self (es : List Entity) (x : Entity) (hx : x ∈ es)
    (hnd : (es.map Entity.id).Nodup) : replaceById es x = es := by
  induction es with
  | nil => cases hx
  | cons e es ih =>
      simp only [List.map_cons, List.nodup_cons, List.mem_map] at hnd
      rcases List.mem_cons.mp hx with rfl | hmem
      · simp [replaceById]
      · have hne : (e.id == x.id) = false := by
          apply beq_eq_false_iff_ne.mpr
          intro hid
          exact hnd.1 ⟨x, hmem, hid.symm⟩
        simp [replaceById, hne, ih hmem hnd.2]

/-! ## Claim theorems -/

/-- C1: evaluation of the code at the failing input.  The store holds exactly
one entity, which is soft-deleted.  Because `_build_select_stmt` (and `list`
via it) discards the statement returned by `add_include_deleted`, the
`include_deleted=True` execution option is never attached and
`_apply_soft_delete_filter` always applies — so `get`, `count` and `list`
called **with** `includeDeleted=true` still exclude the deleted entity,
contradicting the claim's second half (the first half, exclusion by default,
does hold). -/
theorem C1_include_deleted_option_discarded :
    repoGet cfg0 storeDel 1 true [] = .ok none ∧
    repoCount cfg0 storeDel true [] = .ok 0 ∧
    repoList cfg0 storeDel 1 10 true "id" "desc" [] =
      .ok { data := [], total := 0, page := 1, per_page := 10, pages := 0 } ∧
    repoGet cfg0 storeDel 1 false [] = .ok none := by
  decide

/-- C2: evaluation of the code at the failing input.  With an empty cache and
a verifier that accepts the token, the first `get_current_user` of
`core/apps/auth/utils/utils.py` invokes the verifier once but caches the
identity with `expiry = now` (not `now + TTL`: the `+ _CACHE_TTL` term is
commented out), so an immediate second resolve of the same token — well
within the one-hour TTL — misses the cache and invokes the verifier again
(count 1, the claim requires 0).  The `SecurityManager` variant stores
`now + TTL` and satisfies the claim: its second resolve hits the cache,
invokes the verifier zero times and returns the cached identity. -/
theorem C2_cache_entry_born_expired :
    (get_current_user_utils (fun _ => some 7) [] "tok" 100 =
      (some 7, [("tok", { user := some 7, token := "tok" }, 100)], 1)) ∧
    ((get_current_user_utils (fun _ => some 7)
        [("tok", { user := some 7, token := "tok" }, 100)] "tok" 100).2.2 = 1) ∧
    (get_current_user_manager (fun _ => some 7) [] "tok" 100 =
      (some 7, [("tok", { user := some 7, token := "tok" }, 100 + CACHE_TTL)], 1)) ∧
    (get_current_user_manager (fun _ => some 7)
        [("tok", { user := some 7, token := "tok" }, 100 + CACHE_TTL)] "tok" 101 =
      (some 7, [("tok", { user := some 7, token := "tok" }, 100 + CACHE_TTL)], 0)) := by
  exact ⟨rfl, rfl, rfl, rfl⟩

/-- C3 counterexample: a non-superuser identity holding the global-scope
permission `(resource := "invoices", action := "READ", app_name := None)`
and an endpoint requiring `READ` on `invoices` under scope `"billing"`.
Under the claim's scope rule (permission scope unset matches any required
scope) the required actions are covered, so the claim predicts `allow`; the
code's `_get_user_permissions` keeps a permission only when the *required*
scope is unset or equals the permission's scope, so it filters the
permission out and the enforcer returns `Forbidden`. -/
theorem C3_global_permission_forbidden :
    subsetB ["READ"]
      (spec_scope_permissions [permReadInvoices] "invoices" (some "billing")) =
      true ∧
    enforce (some userInvoices) ["READ"] "invoices" (some "billing") true =
      .forbidden := by
  decide

/-- C5 counterexample: a store holding one existing, already-active entity.
`restore(1)` returns `True`, not the `false` the claim requires: the code
only returns `False` for a missing row and never inspects the current
`is_deleted` value.  The database state is unchanged (the entity was
already active, and the audit helper aborts without staging a row). -/
theorem C5_restore_active_returns_true :
    restore cfg0 db1 ctx0 1 none = (.ok true, db1) := by
  decide

/-- C7 counterexample: the filter value `"abc"` for the cast field `id`
fails `int()` and is reported as the single generic exception class
`RepositoryError` — there is no distinct `InvalidFilter` type — and an
integrity-constraint violation is likewise wrapped in the same
`RepositoryError` constructor — there is no distinct `IntegrityViolation`
subtype; the three failure kinds differ only in message text. -/
theorem C7_single_error_type :
    get_filter ["id"] [("id", .fone (.vstr "abc"))] =
      .error (.repositoryError "Invalid filter value for id: abc") ∧
    handle_db_error (.integrity "dup") "create" =
      .repositoryError "Database integrity error during create: dup" ∧
    handle_db_error (.other "boom") "create" =
      .repositoryError "Database error during create: boom" := by
  decide

/-- A row returned by an executed select whose conditions include the
explicit `is_deleted == False` clause is not soft-deleted. -/
theorem not_deleted_of_mem_exec {cfg : RepoConfig} {stmt : Stmt}
    {store : List Entity} {e : Entity} (h1 : Cond.notDeleted ∈ stmt.conds)
    (h2 : e ∈ exec_select cfg stmt store) : e.is_deleted = false := by
  have hall := (mem_exec_select h2).2
  rw [List.all_eq_true] at hall
  have := hall _ h1
  simpa [condHolds] using this

/-- C9: every entity returned by `search` has `is_deleted = false`, for every
store, query, field selection and — in particular — even when the caller
passes `include_deleted = true`: `search` unconditionally adds the
`is_deleted == False` clause for models carrying the flag, so soft-deleted
rows can never appear in search results. -/
theorem C9_search_never_returns_deleted (cfg : RepoConfig)
    (store : List Entity) (q : String) (fields : List String) (incl : Bool)
    (e : Entity) (h : e ∈ (search cfg store q fields incl).data) :
    e.is_deleted = false := by
  unfold search at h
  dsimp only at h
  split at h <;> split at h <;>
    exact not_deleted_of_mem_exec (by simp) h

/-- C9 witness: a store with one active and one soft-deleted entity, searched
with `include_deleted = true`; the active entity is in the results and is
not deleted. -/
theorem C9_witness :
    ({ id := 1, is_deleted := false, fields := [("name", .vstr "alpha")] } : Entity) ∈
      (search cfg0 storeMix "alpha" [] true).data ∧
    ({ id := 1, is_deleted := false, fields := [("name", .vstr "alpha")] } : Entity).is_deleted =
      false :=
  ⟨by decide,
   C9_search_never_returns_deleted cfg0 storeMix "alpha" [] true _ (by decide)⟩

/-- C10: calling `update(id, data)` with a payload that is empty once the
`id` key is popped raises `RepositoryError("No data provided for update")`
before any database access: the result is this error and the database state
is untouched, for every store and every behaviour of the data layer
(including a data layer that would fail). -/
theorem C10_empty_update_payload (cfg : RepoConfig) (db : DB) (ctx : AuthCtx)
    (item_id : Nat) (obj_in : Fields) (dbo : Option DbFailure)
    (h : (obj_in.filter (fun kv => kv.1 != "id")).isEmpty = true) :
    update cfg db ctx item_id obj_in dbo =
      (.error (.repositoryError "No data provided for update"), db) := by
  unfold update
  simp [h]

/-- C10 witness: a payload containing only the `id` key triggers the typed
error, even with a failing data layer in place. -/
theorem C10_witness :
    (([("id", Value.vint 5)] : Fields).filter (fun kv => kv.1 != "id")).isEmpty =
      true ∧
    update cfg0 db1 ctx0 1 [("id", .vint 5)] (some (.other "boom")) =
      (.error (.repositoryError "No data provided for update"), db1) :=
  ⟨by decide,
   C10_empty_update_payload cfg0 db1 ctx0 1 [("id", .vint 5)]
     (some (.other "boom")) (by decide)⟩

/-- C4: evaluation of the code at the failing input.  Updating the single
(active) entity of `db1` with the payload `{"name": "x"}` succeeds — the
field is assigned and the updated entity returned — yet the audit log stays
empty: zero `AuditLogEntry` rows are created, where the claim requires
exactly one with the pre-image as `old_data` and the merged payload as
`new_data`.  `_add_log` aborts on the identity-context read (see
`authContextRead`) and its blanket `except Exception` swallows the error
before `save_log` runs, so no mutation ever writes an audit entry. -/
theorem C4_successful_update_writes_no_audit_entry :
    update cfg0 db1 ctx0 1 [("name", .vstr "x")] none =
      (.ok (some { id := 1, is_deleted := false,
                   fields := [("name", .vstr "x")] }),
       { entities := [{ id := 1, is_deleted := false,
                        fields := [("name", .vstr "x")] }],
         logs := [] }) := by
  decide

/-- C5 (amended): `restore(id)` on an existing **active** entity returns
`true` (not `false`); the database state is completely unchanged — the row
was already active and no audit entry is written, because the audit helper
aborts silently (see `add_log`) — and no error is raised.  (`restore`
returns `false` only when the session finds no row for the id.) -/
theorem C5_restore_found_active (cfg : RepoConfig) (db : DB) (ctx : AuthCtx)
    (item_id : Nat) (pre : Entity)
    (hget : db_get db.entities item_id = some pre)
    (hnd : (db.entities.map Entity.id).Nodup) :
    restore cfg db ctx item_id none = (.ok true, db) := by
  have hmem : pre ∈ db.entities := List.mem_of_find?_eq_some hget
  have hpred := List.find?_some hget
  have hdel : pre.is_deleted = false := by
    have := ((Bool.and_eq_true _ _).mp hpred).2
    simpa using this
  have hpre : ({ pre with is_deleted := false } : Entity) = pre := by
    cases pre
    simp_all
  unfold restore
  rw [hget]
  dsimp only
  rw [hpre, replaceById_self db.entities pre hmem hnd]
  simp [add_log, authContextRead]

/-- C5 witness: the single active entity of `db1` is restored with result
`true` and a byte-for-byte unchanged database. -/
theorem C5_witness :
    db_get db1.entities 1 = some { id := 1, is_deleted := false, fields := [] } ∧
    (db1.entities.map Entity.id).Nodup ∧
    restore cfg0 db1 ctx0 1 none = (.ok true, db1) :=
  ⟨by decide, by decide,
   C5_restore_found_active cfg0 db1 ctx0 1
     { id := 1, is_deleted := false, fields := [] } (by decide) (by decide)⟩

/-- C6: when the data layer fails during a mutating call (`create`,
`update`, `restore`), the transaction rolls back the data change and the
staged audit entry together — the returned database state is exactly the
pre-call state, so no audit entry is ever committed for a failed mutation —
and the failure surfaces as the typed `RepositoryError` built by
`_handle_db_error`. -/
theorem C6_rollback_on_failure (cfg : RepoConfig) (db : DB) (ctx : AuthCtx)
    (obj_in : Fields) (item_id : Nat) (f : DbFailure) (pre : Entity)
    (hne : (obj_in.filter (fun kv => kv.1 != "id")).isEmpty = false)
    (hget : db_get db.entities item_id = some pre) :
    create cfg db ctx obj_in (some f) =
      (.error (handle_db_error f "create"), db) ∧
    update cfg db ctx item_id obj_in (some f) =
      (.error (handle_db_error f "update"), db) ∧
    restore cfg db ctx item_id (some f) =
      (.error (handle_db_error f "restore"), db) := by
  refine ⟨rfl, ?_, ?_⟩
  · unfold update
    simp [hne, hget]
  · unfold restore
    rw [hget]

/-- C6 witness: an integrity failure during `create`/`update`/`restore` on
`db1` leaves the store and the audit log untouched and yields the typed
error. -/
theorem C6_witness :
    (([("name", Value.vstr "x")] : Fields).filter
      (fun kv => kv.1 != "id")).isEmpty = false ∧
    db_get db1.entities 1 = some { id := 1, is_deleted := false, fields := [] } ∧
    (create cfg0 db1 ctx0 [("name", .vstr "x")] (some (.integrity "dup")) =
      (.error (handle_db_error (.integrity "dup") "create"), db1) ∧
    update cfg0 db1 ctx0 1 [("name", .vstr "x")] (some (.integrity "dup")) =
      (.error (handle_db_error (.integrity "dup") "update"), db1) ∧
    restore cfg0 db1 ctx0 1 (some (.integrity "dup")) =
      (.error (handle_db_error (.integrity "dup") "restore"), db1)) :=
  ⟨by decide, by decide,
   C6_rollback_on_failure cfg0 db1 ctx0 [("name", .vstr "x")] 1
     (.integrity "dup") { id := 1, is_deleted := false, fields := [] }
     (by decide) (by decide)⟩

/-- C7 (amended): the repository's failures are typed but share the single
exception class `RepositoryError`, distinguishable only by message: a
filter value failing a registered cast raises
`RepositoryError("Invalid filter value for {k}: {v}")` (rather than
silently matching nothing), an integrity violation raises
`RepositoryError("Database integrity error during {op}: {cause}")`, and any
other data-layer failure raises
`RepositoryError("Database error during {op}: {cause}")`. -/
theorem C7_error_taxonomy (casts : List String) (k : String) (x : Value)
    (rest : Filters) (msg op : String)
    (hk : casts.contains k = true)
    (hnn : (FilterVal.fone x).isNull = false)
    (hx : pyInt x = none) :
    get_filter casts ((k, .fone x) :: rest) =
      .error (.repositoryError
        ("Invalid filter value for " ++ k ++ ": " ++ x.pyStr)) ∧
    handle_db_error (.integrity msg) op =
      .repositoryError ("Database integrity error during " ++ op ++ ": " ++ msg) ∧
    handle_db_error (.other msg) op =
      .repositoryError ("Database error during " ++ op ++ ": " ++ msg) := by
  refine ⟨?_, rfl, rfl⟩
  have hk' : k ∈ casts := by simpa using hk
  unfold get_filter
  simp [hk', hnn, castFilterVal, hx, FilterVal.pyStr]

/-- C7 witness: the concrete cast failure `id = "abc"` and an integrity
failure during `create`. -/
theorem C7_witness :
    (["id"] : List String).contains "id" = true ∧
    (FilterVal.fone (.vstr "abc")).isNull = false ∧
    pyInt (.vstr "abc") = none ∧
    (get_filter ["id"] [("id", .fone (.vstr "abc"))] =
      .error (.repositoryError
        ("Invalid filter value for " ++ "id" ++ ": " ++ Value.pyStr (.vstr "abc"))) ∧
    handle_db_error (.integrity "dup") "create" =
      .repositoryError ("Database integrity error during " ++ "create" ++ ": " ++ "dup") ∧
    handle_db_error (.other "dup") "create" =
      .repositoryError ("Database error during " ++ "create" ++ ": " ++ "dup")) :=
  ⟨by decide, by decide, by decide,
   C7_error_taxonomy ["id"] "id" (.vstr "abc") [] "dup" "create"
     (by decide) (by decide) (by decide)⟩

/-- C3 (amended): for a non-superuser identity the enforcer never returns
`Unauthorized`, and it allows iff every required action is carried by some
permission whose resource equals the required resource and whose scope
passes the code's rule — the **required** scope being unset admits any
permission scope, while a set required scope must be equalled by the
permission's scope (a permission with unset, global scope does not match a
set required scope); otherwise it fails with `Forbidden`. -/
theorem C3_enforce_scope_rule (u : UserIdent) (required : List String)
    (resource : String) (app_name : Option String)
    (hsu : u.is_superuser = false) :
    (enforce (some u) required resource app_name true = .allow ∨
     enforce (some u) required resource app_name true = .forbidden) ∧
    (enforce (some u) required resource app_name true = .allow ↔
      ∀ a ∈ required, ∃ p ∈ u.permissions,
        p.resource = resource ∧
        (app_name = none ∨ p.app_name = app_name) ∧ p.action = a) := by
  unfold enforce check_permissions
  simp only [Bool.not_true, Bool.false_eq_true, if_false, hsu]
  constructor
  · split
    · exact Or.inl rfl
    · exact Or.inr rfl
  · constructor
    · intro hallow a ha
      have hsub : subsetB required
          (get_user_permissions u.permissions resource app_name) = true := by
        by_contra hq
        simp only [Bool.not_eq_true] at hq
        simp [hq] at hallow
      rw [subsetB, List.all_eq_true] at hsub
      have := hsub a ha
      have hmem : a ∈ get_user_permissions u.permissions resource app_name := by
        simpa using this
      rw [get_user_permissions] at hmem
      rcases List.mem_map.mp hmem with ⟨p, hp, hpa⟩
      rcases List.mem_filter.mp hp with ⟨hpm, hcond⟩
      rcases Bool.and_eq_true _ _ |>.mp hcond with ⟨hres, hscope⟩
      refine ⟨p, hpm, by simpa using hres, ?_, hpa⟩
      rcases Bool.or_eq_true _ _ |>.mp hscope with hnone | heq
      · exact Or.inl (by simpa [Option.isNone_iff_eq_none] using hnone)
      · exact Or.inr (by simpa using heq)
    · intro hcov
      have hsub : subsetB required
          (get_user_permissions u.permissions resource app_name) = true := by
        rw [subsetB, List.all_eq_true]
        intro a ha
        rcases hcov a ha with ⟨p, hpm, hres, hscope, hact⟩
        have : a ∈ get_user_permissions u.permissions resource app_name := by
          rw [get_user_permissions]
          refine List.mem_map.mpr ⟨p, List.mem_filter.mpr ⟨hpm, ?_⟩, hact⟩
          refine (Bool.and_eq_true _ _).mpr ⟨by simpa using hres, ?_⟩
          refine (Bool.or_eq_true _ _).mpr ?_
          rcases hscope with hnone | heq
          · exact Or.inl (by simp [hnone])
          · exact Or.inr (by simp [heq])
        simpa using this
      simp [hsub]

/-- C3 witness: a non-superuser holding exactly
`(invoices, READ, scope "billing")` asking for `READ` on `invoices` under
scope `"billing"`: the enforcer allows, matching the characterization. -/
theorem C3_witness :
    userInvoicesBilling.is_superuser = false ∧
    (enforce (some userInvoicesBilling) ["READ"] "invoices" (some "billing")
        true = .allow ↔
      ∀ a ∈ ["READ"], ∃ p ∈ userInvoicesBilling.permissions,
        p.resource = "invoices" ∧
        ((some "billing" : Option String) = none ∨
          p.app_name = some "billing") ∧ p.action = a) :=
  ⟨rfl,
   (C3_enforce_scope_rule userInvoicesBilling ["READ"] "invoices"
     (some "billing") rfl).2⟩

/-- C8: `list` clamps `page < 1` to `1` and `per_page` outside `[1, 100]` to
`10` without raising, computes `total` over the filtered-but-unpaginated
rows, orders by the caller-specified field (the identifier, descending, by
default — here any model column), applies `OFFSET (page-1)*per_page` and
`LIMIT per_page`, and returns `pages = ⌈total / per_page⌉`; the returned
page is sorted under the requested order. -/
theorem C8_list_pagination (cfg : RepoConfig) (store : List Entity)
    (page per_page : Int) (incl : Bool) (sort_by sort_order : String)
    (filters : Filters) (stmt : Stmt) (page' per_page' : Int)
    (rows items : List Entity)
    (hstmt : build_select_stmt cfg incl filters = .ok stmt)
    (hsf : hasField cfg sort_by = true)
    (hp : page' = if page < 1 then 1 else page)
    (hpp : per_page' = if per_page < 1 || per_page > 100 then 10 else per_page)
    (hrows : rows = exec_select cfg stmt store)
    (hitems : items = ((sortRows cfg sort_by sort_order rows).drop
      ((page' - 1) * per_page').toNat).take per_page'.toNat) :
    repoList cfg store page per_page incl sort_by sort_order filters =
      .ok { data := items, total := rows.length, page := page',
            per_page := per_page',
            pages := rows.length ⌈/⌉ per_page'.toNat } ∧
    List.Sorted (sortRel cfg sort_by sort_order) items := by
  subst hp hpp hrows hitems
  constructor
  · unfold repoList
    rw [hstmt]
    simp [Except.map, hsf, Nat.ceilDiv_eq_add_pred_div]
  · have hs : List.Sorted (sortRel cfg sort_by sort_order)
        (sortRows cfg sort_by sort_order (exec_select cfg stmt store)) :=
      List.sorted_insertionSort _ _
    exact List.Pairwise.sublist
      ((List.take_sublist _ _).trans (List.drop_sublist _ _)) hs

/-- C8 witness: the spec's scenario — `list(page=1, per_page=10)` over 25
non-deleted entities returns `total = 25`, `pages = 3` and the 10 items of
largest id, ordered by id descending. -/
theorem C8_witness :
    build_select_stmt cfg0 false [] =
      .ok { includeDeletedOpt := false, conds := [] } ∧
    hasField cfg0 "id" = true ∧
    repoList cfg0 store25 1 10 false "id" "desc" [] =
      .ok { data := store25.reverse.take 10, total := 25, page := 1,
            per_page := 10, pages := 3 } ∧
    List.Sorted (sortRel cfg0 "id" "desc") (store25.reverse.take 10) := by
  have h := C8_list_pagination cfg0 store25 1 10 false "id" "desc" []
    { includeDeletedOpt := false, conds := [] } 1 10 store25
    (store25.reverse.take 10) rfl rfl (by decide) (by decide) (by decide)
    (by decide)
  exact ⟨rfl, rfl, h.1.trans (by decide), h.2⟩

end RootCore
